import Mathlib

/-!
Verification of the trivia-live room coordinator and scoring engine.

The definitions below are a shallow embedding of the TypeScript sources:
`src/lib/room.ts` (room creation, ledger upserts, judging transactions),
`src/lib/util.ts` (`clamp`, `safeTrim`), `src/lib/types.ts` (the data model)
and `src/app/api/generate/route.ts` (bulk question validation).

Firestore documents become association lists keyed by document id.  A
`setDoc(..., \x7b merge: true \x7d)` whose payload lists every field of the record
is an upsert that fully determines the record, so it is modelled by `setRec`.
`runTransaction` either commits all writes or aborts with no write, so each
judging transaction is a pure function returning `Except OpError RoomState`:
on `error` the state is unchanged.  `serverTimestamp()` is an opaque
server-assigned value, modelled by a `Nat` parameter `now`.  JavaScript
numbers reaching the scoring paths are integers after `Math.floor`, so they
are modelled as `Int` (with `Math.floor` the identity on them).  Random id
generation (`randomSecret`) is modelled by passing the secret as a parameter.
-/

namespace Trivia

/-- `clamp` from `src/lib/util.ts`: `Math.max(min, Math.min(max, n))`. -/
def clamp (n lo hi : Int) : Int :=
  max lo (min hi n)

/-- JavaScript `String.prototype.trim`: drop leading and trailing
whitespace.  Defined structurally over the character list so that proofs
can evaluate it on concrete strings. -/
def jsTrim (s : String) : String :=
  String.mk (((s.data.dropWhile Char.isWhitespace).reverse.dropWhile
    Char.isWhitespace).reverse)

/-- `safeTrim` from `src/lib/util.ts`: trim, then truncate to `max` units. -/
def safeTrim (s : String) (maxLen : Nat) : String :=
  let t := jsTrim s
  if t.length > maxLen then t.take maxLen else t

/-- Lookup by key in an association list (a Firestore document read). -/
def findRec (k : String) : List (String × α) → Option α
  | [] => none
  | (k2, v) :: rest => if k = k2 then some v else findRec k rest

/-- Full-record upsert by key (a `setDoc` whose payload lists every field). -/
def setRec (k : String) (v : α) : List (String × α) → List (String × α)
  | [] => [(k, v)]
  | (k2, v2) :: rest => if k = k2 then (k, v) :: rest else (k2, v2) :: setRec k v rest

/-- `Phase` from `src/lib/types.ts`. -/
inductive Phase
  | lobby
  | question
  | final_wager
  | final_answer
  | ended
deriving Repr, DecidableEq

/-- `TriviaQuestion` from `src/lib/types.ts`. -/
structure TriviaQuestion where
  id : String
  question : String
  answer : String
  category : String
deriving Repr, DecidableEq

/-- The nested `final` sub-state of `Room`. -/
structure FinalFlags where
  wagersOpen : Bool
  answersOpen : Bool
  revealedAnswer : Bool
deriving Repr, DecidableEq

/-- `Room` from `src/lib/types.ts` (`createdAt` is an opaque server
timestamp and is not modelled; no claim mentions it). -/
structure Room where
  hostSecret : String
  status : Phase
  title : String
  questions : List TriviaQuestion
  currentIndex : Nat
  revealed : Bool
  acceptingAnswers : Bool
  final : FinalFlags
deriving Repr, DecidableEq

/-- `Player` document data (`score` plus metadata). -/
structure PlayerRec where
  name : String
  score : Int
  joinedAt : Nat
deriving Repr, DecidableEq

/-- `Submission` document data from `src/lib/types.ts`. -/
structure SubmissionRec where
  playerId : String
  playerName : String
  questionIndex : Nat
  answer : String
  createdAt : Nat
  judged : Option Bool
  pointsDelta : Int
deriving Repr, DecidableEq

/-- `Wager` document data from `src/lib/types.ts`. -/
structure WagerRec where
  playerId : String
  playerName : String
  wager : Int
  createdAt : Nat
deriving Repr, DecidableEq

/-- `FinalAnswer` document data from `src/lib/types.ts`. -/
structure FinalAnswerRec where
  playerId : String
  playerName : String
  answer : String
  createdAt : Nat
  judged : Option Bool
  pointsDelta : Int
deriving Repr, DecidableEq

/-- The Firestore documents of one room: the room doc and its
`players`, `submissions`, `wagers` and `finalAnswers` sub-collections. -/
structure RoomState where
  room : Option Room
  players : List (String × PlayerRec)
  submissions : List (String × SubmissionRec)
  wagers : List (String × WagerRec)
  finalAnswers : List (String × FinalAnswerRec)
deriving Repr, DecidableEq

/-- Error taxonomy of the coordinator, matching the spec's categories.
`notFound` covers `Error("Room not found")`, `Error("Submission not found")`
and `Error("Final answer not found")`; `unauthorized` covers
`Error("Not host")`; `updateFailed` covers the Firestore error raised when
`tx.update` targets a document that does not exist. -/
inductive OpError
  | notFound (msg : String)
  | unauthorized (msg : String)
  | updateFailed (msg : String)
deriving Repr, DecidableEq

/-- `defaultQuestions` from `src/lib/room.ts`. -/
def defaultQuestions : List TriviaQuestion :=
  (List.range 10).map fun i =>
    { id := toString (i + 1)
      question := if i = 9 then "Final Jeopardy (host will set)" else ""
      answer := ""
      category := "" }

/-- `createRoom` from `src/lib/room.ts`; the random `hostSecret` is a
parameter.  `title || "Trivia Night"` falls back on the empty string. -/
def createRoom (hostSecret : String) (title : String) : Room :=
  { hostSecret := hostSecret
    status := .lobby
    title := safeTrim (if title = "" then "Trivia Night" else title) 60
    questions := defaultQuestions
    currentIndex := 0
    revealed := false
    acceptingAnswers := false
    final := { wagersOpen := false, answersOpen := false, revealedAnswer := false } }

/-- `joinAsPlayer` from `src/lib/room.ts`: upserts the player document with
`name`, `score: 0` and a join timestamp. -/
def joinAsPlayer (st : RoomState) (playerId name : String) (now : Nat) : RoomState :=
  let p : PlayerRec :=
    { name := if safeTrim name 32 = "" then "Player" else safeTrim name 32
      score := 0
      joinedAt := now }
  { st with players := setRec playerId p st.players }

/-- Submission document id: `` `${questionIndex}_${playerId}` ``. -/
def submissionKey (questionIndex : Nat) (playerId : String) : String :=
  toString questionIndex ++ "_" ++ playerId

/-- `submitAnswer` from `src/lib/room.ts`: a merge upsert whose payload
lists every field of the submission, so the stored record is fully
replaced (`judged: null`, `pointsDelta: 0`). -/
def submitAnswer (st : RoomState) (playerId playerName : String) (questionIndex : Nat)
    (answer : String) (now : Nat) : RoomState :=
  let sub : SubmissionRec :=
    { playerId := playerId
      playerName := playerName
      questionIndex := questionIndex
      answer := safeTrim answer 280
      createdAt := now
      judged := none
      pointsDelta := 0 }
  { st with submissions := setRec (submissionKey questionIndex playerId) sub st.submissions }

/-- `submitWager` from `src/lib/room.ts`: stores
`clamp(Math.floor(wager), 0, 9999)`. -/
def submitWager (st : RoomState) (playerId playerName : String) (wager : Int)
    (now : Nat) : RoomState :=
  let wr : WagerRec :=
    { playerId := playerId
      playerName := playerName
      wager := clamp wager 0 9999
      createdAt := now }
  { st with wagers := setRec playerId wr st.wagers }

/-- `submitFinalAnswer` from `src/lib/room.ts`. -/
def submitFinalAnswer (st : RoomState) (playerId playerName : String) (answer : String)
    (now : Nat) : RoomState :=
  let ans : FinalAnswerRec :=
    { playerId := playerId
      playerName := playerName
      answer := safeTrim answer 280
      createdAt := now
      judged := none
      pointsDelta := 0 }
  { st with finalAnswers := setRec playerId ans st.finalAnswers }

/-- `judgeSubmission` from `src/lib/room.ts`.  The transaction reads the
room, checks the host secret, reads the submission, no-ops when it is
already judged, otherwise adds `+1`/`0` to the player's score (skipping
the score write when the player document is absent) and marks the
submission judged with the delta recorded.  A thrown error aborts the
transaction with no write. -/
def judgeSubmission (st : RoomState) (hostSecret submissionId : String) (correct : Bool) :
    Except OpError RoomState :=
  match st.room with
  | none => .error (.notFound "Room not found")
  | some room =>
    if room.hostSecret = hostSecret then
      match findRec submissionId st.submissions with
      | none => .error (.notFound "Submission not found")
      | some sub =>
        match sub.judged with
        | some _ => .ok st
        | none =>
          let delta : Int := if correct then 1 else 0
          let players2 :=
            match findRec sub.playerId st.players with
            | some p => setRec sub.playerId { p with score := p.score + delta } st.players
            | none => st.players
          .ok { st with
                  players := players2
                  submissions :=
                    setRec submissionId
                      { sub with judged := some correct, pointsDelta := delta }
                      st.submissions }
    else .error (.unauthorized "Not host")

/-- `judgeFinal` from `src/lib/room.ts`.  Reads the final answer (no-op if
already judged), the wager (default `0` when absent) and the player, clamps
the wager to `[0, score]`, and applies `±wager`.  `tx.update` on an absent
player document makes the transaction fail with no write. -/
def judgeFinal (st : RoomState) (hostSecret playerId : String) (correct : Bool) :
    Except OpError RoomState :=
  match st.room with
  | none => .error (.notFound "Room not found")
  | some room =>
    if room.hostSecret = hostSecret then
      match findRec playerId st.finalAnswers with
      | none => .error (.notFound "Final answer not found")
      | some ans =>
        match ans.judged with
        | some _ => .ok st
        | none =>
          let w : Int :=
            match findRec playerId st.wagers with
            | some wr => wr.wager
            | none => 0
          match findRec playerId st.players with
          | none => .error (.updateFailed "No document to update")
          | some p =>
            let wager := clamp w 0 p.score
            let delta := if correct then wager else -wager
            .ok { st with
                    players := setRec playerId { p with score := p.score + delta } st.players
                    finalAnswers :=
                      setRec playerId
                        { ans with judged := some correct, pointsDelta := delta }
                        st.finalAnswers }
    else .error (.unauthorized "Not host")

/-- Reading back an upserted key returns the upserted record; other keys
are unaffected. -/
theorem findRec_setRec (k k2 : String) (v : α) (l : List (String × α)) :
    findRec k2 (setRec k v l) = if k2 = k then some v else findRec k2 l := by
  induction l with
  | nil =>
    by_cases h : k2 = k <;> simp [findRec, setRec, h]
  | cons hd tl ih =>
    obtain ⟨k3, v3⟩ := hd
    by_cases h1 : k = k3
    · subst h1
      by_cases h2 : k2 = k <;> simp [findRec, setRec, h2]
    · by_cases h2 : k2 = k3
      · subst h2
        have h3 : ¬ k2 = k := fun h => h1 h.symm
        simp [findRec, setRec, h1, h3]
      · simp [findRec, setRec, h1, h2, ih]

/-- C1: For every Final Jeopardy judgment via `judgeFinal`, with the
declared wager `wr.wager` on record and the player's score `p.score` at the
moment of judgment, the applied score delta is `clamp wr.wager 0 p.score`
when correct and its negation when incorrect, recorded in `pointsDelta` and
added to the score. -/
theorem judgeFinal_applies_clamped_wager (st : RoomState) (room : Room)
    (hostSecret playerId : String) (correct : Bool)
    (ans : FinalAnswerRec) (wr : WagerRec) (p : PlayerRec)
    (hroom : st.room = some room) (hsec : room.hostSecret = hostSecret)
    (hans : findRec playerId st.finalAnswers = some ans) (hj : ans.judged = none)
    (hw : findRec playerId st.wagers = some wr) (hp : findRec playerId st.players = some p) :
    ∃ st2, judgeFinal st hostSecret playerId correct = .ok st2 ∧
      (findRec playerId st2.players).map PlayerRec.score =
        some (p.score +
          (if correct then clamp wr.wager 0 p.score else -clamp wr.wager 0 p.score)) ∧
      (findRec playerId st2.finalAnswers).map FinalAnswerRec.pointsDelta =
        some (if correct then clamp wr.wager 0 p.score else -clamp wr.wager 0 p.score) := by
  have hrun : judgeFinal st hostSecret playerId correct = .ok
      { st with
          players :=
            setRec playerId
              { p with score := p.score +
                  (if correct then clamp wr.wager 0 p.score else -clamp wr.wager 0 p.score) }
              st.players
          finalAnswers :=
            setRec playerId
              { ans with judged := some correct
                         pointsDelta :=
                           if correct then clamp wr.wager 0 p.score
                           else -clamp wr.wager 0 p.score }
              st.finalAnswers } := by
    simp [judgeFinal, hroom, hsec, hans, hj, hw, hp]
  exact ⟨_, hrun, by simp [findRec_setRec], by simp [findRec_setRec]⟩

/-- A room and ledger realizing the spec scenario: player `p1` has score 5
and has declared wager 9999 (stored through `submitWager`). -/
def c1State : RoomState :=
  submitWager
    { room := some (createRoom "sec1" "Trivia Night")
      players := [("p1", { name := "Ann", score := 5, joinedAt := 0 })]
      submissions := []
      wagers := []
      finalAnswers :=
        [("p1", { playerId := "p1", playerName := "Ann", answer := "42", createdAt := 2
                  judged := none, pointsDelta := 0 })] }
    "p1" "Ann" 9999 1

theorem judgeFinal_applies_clamped_wager_witness :
    ∃ st2, judgeFinal c1State "sec1" "p1" true = .ok st2 ∧
      (findRec "p1" st2.players).map PlayerRec.score = some 10 ∧
      (findRec "p1" st2.finalAnswers).map FinalAnswerRec.pointsDelta = some 5 := by
  obtain ⟨st2, h1, h2, h3⟩ :=
    judgeFinal_applies_clamped_wager c1State (createRoom "sec1" "Trivia Night")
      "sec1" "p1" true
      { playerId := "p1", playerName := "Ann", answer := "42", createdAt := 2
        judged := none, pointsDelta := 0 }
      { playerId := "p1", playerName := "Ann", wager := 9999, createdAt := 1 }
      { name := "Ann", score := 5, joinedAt := 0 }
      rfl rfl rfl rfl (by decide) rfl
  refine ⟨st2, h1, ?_, ?_⟩
  · rw [h2]; decide
  · rw [h3]; decide

/-- C2: judging is idempotent.  A `judgeSubmission` or `judgeFinal` call
whose target already has `judged` non-null returns the state unchanged:
no score, `judged` or `pointsDelta` field moves, so `judged` transitions
at most once from null to a boolean. -/
theorem judging_idempotent :
    (∀ (st : RoomState) (room : Room) (hostSecret submissionId : String)
        (correct b : Bool) (sub : SubmissionRec),
        st.room = some room → room.hostSecret = hostSecret →
        findRec submissionId st.submissions = some sub → sub.judged = some b →
        judgeSubmission st hostSecret submissionId correct = .ok st) ∧
    (∀ (st : RoomState) (room : Room) (hostSecret playerId : String)
        (correct b : Bool) (ans : FinalAnswerRec),
        st.room = some room → room.hostSecret = hostSecret →
        findRec playerId st.finalAnswers = some ans → ans.judged = some b →
        judgeFinal st hostSecret playerId correct = .ok st) := by
  constructor
  · intro st room hs sid c b sub hroom hsec hfind hj
    simp [judgeSubmission, hroom, hsec, hfind, hj]
  · intro st room hs pid c b ans hroom hsec hfind hj
    simp [judgeFinal, hroom, hsec, hfind, hj]

/-- A state whose submission `0_p1` and final answer `p1` are already judged. -/
def c2State : RoomState :=
  { room := some (createRoom "sec2" "t")
    players := [("p1", { name := "Ann", score := 3, joinedAt := 0 })]
    submissions :=
      [("0_p1", { playerId := "p1", playerName := "Ann", questionIndex := 0
                  answer := "x", createdAt := 1, judged := some true, pointsDelta := 1 })]
    wagers := []
    finalAnswers :=
      [("p1", { playerId := "p1", playerName := "Ann", answer := "y", createdAt := 2
                judged := some false, pointsDelta := 0 })] }

theorem judging_idempotent_witness :
    judgeSubmission c2State "sec2" "0_p1" false = .ok c2State ∧
    judgeFinal c2State "sec2" "p1" true = .ok c2State :=
  ⟨judging_idempotent.1 c2State (createRoom "sec2" "t") "sec2" "0_p1" false true
      { playerId := "p1", playerName := "Ann", questionIndex := 0
        answer := "x", createdAt := 1, judged := some true, pointsDelta := 1 }
      rfl rfl rfl rfl,
   judging_idempotent.2 c2State (createRoom "sec2" "t") "sec2" "p1" true false
      { playerId := "p1", playerName := "Ann", answer := "y", createdAt := 2
        judged := some false, pointsDelta := 0 }
      rfl rfl rfl rfl⟩

/-- C6: `judgeSubmission` fails with the not-found error when the room or
the submission is absent, and with the unauthorized error when the
presented host secret differs from `room.hostSecret`.  The transaction
aborts on error, returning `.error` with no new state, so no score,
`judged` or `pointsDelta` field is modified in any failure case. -/
theorem judgeSubmission_failure_modes :
    (∀ (st : RoomState) (hostSecret submissionId : String) (correct : Bool),
        st.room = none →
        judgeSubmission st hostSecret submissionId correct =
          .error (.notFound "Room not found")) ∧
    (∀ (st : RoomState) (room : Room) (hostSecret submissionId : String) (correct : Bool),
        st.room = some room → room.hostSecret ≠ hostSecret →
        judgeSubmission st hostSecret submissionId correct =
          .error (.unauthorized "Not host")) ∧
    (∀ (st : RoomState) (room : Room) (hostSecret submissionId : String) (correct : Bool),
        st.room = some room → room.hostSecret = hostSecret →
        findRec submissionId st.submissions = none →
        judgeSubmission st hostSecret submissionId correct =
          .error (.notFound "Submission not found")) := by
  refine ⟨?_, ?_, ?_⟩
  · intro st hs sid c hroom
    simp [judgeSubmission, hroom]
  · intro st room hs sid c hroom hsec
    simp [judgeSubmission, hroom, hsec]
  · intro st room hs sid c hroom hsec hfind
    simp [judgeSubmission, hroom, hsec, hfind]

/-- A room with secret `sec6` and no submissions, plus a roomless state. -/
def c6State : RoomState :=
  { room := some (createRoom "sec6" "t")
    players := []
    submissions := []
    wagers := []
    finalAnswers := [] }

theorem judgeSubmission_failure_modes_witness :
    judgeSubmission { c6State with room := none } "sec6" "0_p1" true =
      .error (.notFound "Room not found") ∧
    judgeSubmission c6State "wrong" "0_p1" true = .error (.unauthorized "Not host") ∧
    judgeSubmission c6State "sec6" "0_p1" true =
      .error (.notFound "Submission not found") :=
  ⟨judgeSubmission_failure_modes.1 { c6State with room := none } "sec6" "0_p1" true rfl,
   judgeSubmission_failure_modes.2.1 c6State (createRoom "sec6" "t") "wrong" "0_p1" true
      rfl (by decide),
   judgeSubmission_failure_modes.2.2 c6State (createRoom "sec6" "t") "sec6" "0_p1" true
      rfl rfl rfl⟩

/-- C8: on an unjudged submission with room present, matching host secret
and existing player, `judgeSubmission` adds `+1` to the player's score when
correct and `0` when incorrect, and in the same transaction marks the
submission judged with that delta recorded in `pointsDelta`. -/
theorem judgeSubmission_unjudged_delta (st : RoomState) (room : Room)
    (hostSecret submissionId : String) (correct : Bool)
    (sub : SubmissionRec) (p : PlayerRec)
    (hroom : st.room = some room) (hsec : room.hostSecret = hostSecret)
    (hfind : findRec submissionId st.submissions = some sub) (hj : sub.judged = none)
    (hp : findRec sub.playerId st.players = some p) :
    judgeSubmission st hostSecret submissionId correct = .ok
      { st with
          players :=
            setRec sub.playerId
              { p with score := p.score + (if correct then 1 else 0) } st.players
          submissions :=
            setRec submissionId
              { sub with judged := some correct
                         pointsDelta := if correct then 1 else 0 } st.submissions } := by
  simp [judgeSubmission, hroom, hsec, hfind, hj, hp]

/-- A state with an unjudged submission `0_p1` by player `p1` at score 2. -/
def c8State : RoomState :=
  { room := some (createRoom "sec8" "t")
    players := [("p1", { name := "Ann", score := 2, joinedAt := 0 })]
    submissions :=
      [("0_p1", { playerId := "p1", playerName := "Ann", questionIndex := 0
                  answer := "x", createdAt := 1, judged := none, pointsDelta := 0 })]
    wagers := []
    finalAnswers := [] }

theorem judgeSubmission_unjudged_delta_witness :
    judgeSubmission c8State "sec8" "0_p1" true = .ok
      { c8State with
          players := [("p1", { name := "Ann", score := 3, joinedAt := 0 })]
          submissions :=
            [("0_p1", { playerId := "p1", playerName := "Ann", questionIndex := 0
                        answer := "x", createdAt := 1, judged := some true
                        pointsDelta := 1 })] } := by
  have h := judgeSubmission_unjudged_delta c8State (createRoom "sec8" "t")
    "sec8" "0_p1" true
    { playerId := "p1", playerName := "Ann", questionIndex := 0
      answer := "x", createdAt := 1, judged := none, pointsDelta := 0 }
    { name := "Ann", score := 2, joinedAt := 0 }
    rfl rfl rfl rfl rfl
  rw [h]
  rfl

/-- A room with secret `sec7` holding an unjudged submission `0_p1` whose
player document `p1` is absent. -/
def c7State : RoomState :=
  { room := some (createRoom "sec7" "t")
    players := []
    submissions :=
      [("0_p1", { playerId := "p1", playerName := "Ann", questionIndex := 0
                  answer := "x", createdAt := 1, judged := none, pointsDelta := 0 })]
    wagers := []
    finalAnswers := [] }

/-- The state `judgeSubmission` actually produces on `c7State`: the
submission is marked judged even though the player document is absent. -/
def c7After : RoomState :=
  { c7State with
      submissions :=
        [("0_p1", { playerId := "p1", playerName := "Ann", questionIndex := 0
                    answer := "x", createdAt := 1, judged := some true
                    pointsDelta := 1 })] }

/-- C7 counterexample: judging a submission whose player document is
absent does not abort with a not-found error; the call succeeds and the
submission's `judged` field changes from null to `true`. -/
theorem judgeSubmission_playerAbsent_counterexample :
    findRec "p1" c7State.players = none ∧
    judgeSubmission c7State "sec7" "0_p1" true = .ok c7After ∧
    (findRec "0_p1" c7After.submissions).map SubmissionRec.judged = some (some true) :=
  ⟨rfl, rfl, rfl⟩

/-- C7 amended: when the submission's player document is absent (room
present, secret matching, submission unjudged), `judgeSubmission` succeeds:
the score write is skipped, the player collection is untouched, and the
submission is still marked judged with the delta recorded. -/
theorem judgeSubmission_playerAbsent (st : RoomState) (room : Room)
    (hostSecret submissionId : String) (correct : Bool) (sub : SubmissionRec)
    (hroom : st.room = some room) (hsec : room.hostSecret = hostSecret)
    (hfind : findRec submissionId st.submissions = some sub) (hj : sub.judged = none)
    (hp : findRec sub.playerId st.players = none) :
    judgeSubmission st hostSecret submissionId correct = .ok
      { st with
          submissions :=
            setRec submissionId
              { sub with judged := some correct
                         pointsDelta := if correct then 1 else 0 } st.submissions } := by
  simp [judgeSubmission, hroom, hsec, hfind, hj, hp]

theorem judgeSubmission_playerAbsent_witness :
    judgeSubmission c7State "sec7" "0_p1" false = .ok
      { c7State with
          submissions :=
            [("0_p1", { playerId := "p1", playerName := "Ann", questionIndex := 0
                        answer := "x", createdAt := 1, judged := some false
                        pointsDelta := 0 })] } := by
  have h := judgeSubmission_playerAbsent c7State (createRoom "sec7" "t")
    "sec7" "0_p1" false
    { playerId := "p1", playerName := "Ann", questionIndex := 0
      answer := "x", createdAt := 1, judged := none, pointsDelta := 0 }
    rfl rfl rfl rfl rfl
  rw [h]
  rfl

/-- An empty ledger used for the wager-storage counterexample. -/
def c4State : RoomState :=
  { room := none, players := [], submissions := [], wagers := [], finalAnswers := [] }

/-- C4 counterexample: `submitWager` does not store the raw declared
amount; a declared wager of 100000 is stored as 9999 (and a declared -5 as
0), because the stored value is `clamp(Math.floor(wager), 0, 9999)`. -/
theorem submitWager_counterexample :
    (findRec "p1" (submitWager c4State "p1" "Ann" 100000 0).wagers).map WagerRec.wager =
      some 9999 ∧
    (findRec "p2" (submitWager c4State "p2" "Bob" (-5) 0).wagers).map WagerRec.wager =
      some 0 ∧
    (9999 : Int) ≠ 100000 := by
  refine ⟨rfl, rfl, by decide⟩

/-- C4 amended: `submitWager` stores `clamp wager 0 9999` — the declared
amount clamped into the fixed range [0, 9999] at submission time.  The
stored value does not depend on the player's score; clamping against the
score happens only at judgment time (`judgeFinal`). -/
theorem submitWager_stores_fixed_clamp (st : RoomState) (playerId playerName : String)
    (wager : Int) (now : Nat) :
    (findRec playerId (submitWager st playerId playerName wager now).wagers).map
      WagerRec.wager = some (clamp wager 0 9999) := by
  simp [submitWager, findRec_setRec]

/-- Modelled from the spec: the write-acceptance rule for answer upserts.
The repository ships Firestore security rules (`FIRESTORE_RULES.txt`,
referenced by the README's setup instructions but not present under
`src/`), which are the layer where a write to an already-judged submission
is rejected; the client-side `submitAnswer` in `src/lib/room.ts` alone
performs an unconditional merge write.  Per the spec, `upsertAnswer`
"overwrites any prior unjudged answer for that (questionIndex, playerId)
key; rejected (silently ignored or surfaced as a no-op error) once
judged". -/
def upsertAnswer (st : RoomState) (playerId playerName : String) (questionIndex : Nat)
    (answer : String) (now : Nat) : RoomState :=
  match findRec (submissionKey questionIndex playerId) st.submissions with
  | some sub =>
    match sub.judged with
    | some _ => st
    | none => submitAnswer st playerId playerName questionIndex answer now
  | none => submitAnswer st playerId playerName questionIndex answer now

/-- C3: once a submission is judged, a later answer upsert for the same
(questionIndex, playerId) key is a no-op: the state is unchanged and the
stored submission keeps its `judged`, `pointsDelta` and `answer` fields. -/
theorem upsertAnswer_judged_immutable (st : RoomState) (playerId playerName : String)
    (questionIndex : Nat) (answer : String) (now : Nat) (sub : SubmissionRec) (b : Bool)
    (hfind : findRec (submissionKey questionIndex playerId) st.submissions = some sub)
    (hj : sub.judged = some b) :
    upsertAnswer st playerId playerName questionIndex answer now = st ∧
    findRec (submissionKey questionIndex playerId)
      (upsertAnswer st playerId playerName questionIndex answer now).submissions =
      some sub := by
  have h1 : upsertAnswer st playerId playerName questionIndex answer now = st := by
    simp [upsertAnswer, hfind, hj]
  rw [h1]
  exact ⟨rfl, hfind⟩

/-- A room whose submission `0_p1` is already judged correct. -/
def c3State : RoomState :=
  { room := some (createRoom "sec3" "t")
    players := [("p1", { name := "Ann", score := 1, joinedAt := 0 })]
    submissions :=
      [("0_p1", { playerId := "p1", playerName := "Ann", questionIndex := 0
                  answer := "first", createdAt := 1, judged := some true
                  pointsDelta := 1 })]
    wagers := []
    finalAnswers := [] }

theorem upsertAnswer_judged_immutable_witness :
    upsertAnswer c3State "p1" "Ann" 0 "second" 9 = c3State ∧
    findRec "0_p1" (upsertAnswer c3State "p1" "Ann" 0 "second" 9).submissions =
      some { playerId := "p1", playerName := "Ann", questionIndex := 0
             answer := "first", createdAt := 1, judged := some true, pointsDelta := 1 } :=
  upsertAnswer_judged_immutable c3State "p1" "Ann" 0 "second" 9
    { playerId := "p1", playerName := "Ann", questionIndex := 0
      answer := "first", createdAt := 1, judged := some true, pointsDelta := 1 }
    true rfl rfl

/-- C9 counterexample: the room created by `createRoom "sec9" "Friday
Night"` does not have ten question slots with empty question text — slot 10
(index 9) holds the placeholder `"Final Jeopardy (host will set)"`. -/
theorem createRoom_counterexample :
    ¬ (∀ q ∈ (createRoom "sec9" "Friday Night").questions, q.question = "") := by
  decide

/-- C9 amended: a created room starts with status `lobby`, `currentIndex`
0, `revealed` and `acceptingAnswers` false, all Final Jeopardy sub-state
flags false, and exactly 10 question slots; the first nine have empty
question text while index 9 holds the placeholder
`"Final Jeopardy (host will set)"`, and every slot's answer and category
are empty. -/
theorem createRoom_initial_state (hostSecret title : String) :
    (createRoom hostSecret title).status = Phase.lobby ∧
    (createRoom hostSecret title).currentIndex = 0 ∧
    (createRoom hostSecret title).revealed = false ∧
    (createRoom hostSecret title).acceptingAnswers = false ∧
    (createRoom hostSecret title).final =
      { wagersOpen := false, answersOpen := false, revealedAnswer := false } ∧
    (createRoom hostSecret title).questions.length = 10 ∧
    ((createRoom hostSecret title).questions.take 9).all
      (fun q => q.question == "") = true ∧
    ((createRoom hostSecret title).questions.get? 9).map TriviaQuestion.question =
      some "Final Jeopardy (host will set)" ∧
    (createRoom hostSecret title).questions.all
      (fun q => q.answer == "" && q.category == "") = true :=
  ⟨rfl, rfl, rfl, rfl, rfl,
   (by decide : defaultQuestions.length = 10),
   (by decide : (defaultQuestions.take 9).all (fun q => q.question == "") = true),
   (by decide : (defaultQuestions.get? 9).map TriviaQuestion.question =
      some "Final Jeopardy (host will set)"),
   (by decide : defaultQuestions.all (fun q => q.answer == "" && q.category == "") = true)⟩

/-- A client intent against the room coordinator: joins, ledger upserts
and the two judging transactions. -/
inductive Op
  | join (playerId name : String) (now : Nat)
  | answer (playerId playerName : String) (questionIndex : Nat) (text : String) (now : Nat)
  | wagered (playerId playerName : String) (amount : Int) (now : Nat)
  | finalAns (playerId playerName : String) (text : String) (now : Nat)
  | judgeSub (hostSecret submissionId : String) (correct : Bool)
  | judgeFin (hostSecret playerId : String) (correct : Bool)

/-- Apply one operation; a failed judging transaction aborts with no
write, so the state is unchanged on error. -/
def applyOp (st : RoomState) : Op → RoomState
  | .join pid name now => joinAsPlayer st pid name now
  | .answer pid pname qi text now => submitAnswer st pid pname qi text now
  | .wagered pid pname amount now => submitWager st pid pname amount now
  | .finalAns pid pname text now => submitFinalAnswer st pid pname text now
  | .judgeSub hs sid c =>
    match judgeSubmission st hs sid c with
    | .ok st2 => st2
    | .error _ => st
  | .judgeFin hs pid c =>
    match judgeFinal st hs pid c with
    | .ok st2 => st2
    | .error _ => st

/-- Run a sequence of operations. -/
def run (st : RoomState) (ops : List Op) : RoomState :=
  ops.foldl applyOp st

/-- Every stored player score is non-negative. -/
def ScoresNonneg (st : RoomState) : Prop :=
  ∀ pid p, findRec pid st.players = some p → 0 ≤ p.score

/-- The state of a freshly created room: the room document and empty
sub-collections. -/
def initialState (hostSecret title : String) : RoomState :=
  { room := some (createRoom hostSecret title)
    players := []
    submissions := []
    wagers := []
    finalAnswers := [] }

theorem joinAsPlayer_nonneg (st : RoomState) (pid name : String) (now : Nat)
    (h : ScoresNonneg st) : ScoresNonneg (joinAsPlayer st pid name now) := by
  intro pid2 p2 hfind
  simp only [joinAsPlayer, findRec_setRec] at hfind
  by_cases hc : pid2 = pid
  · rw [if_pos hc, Option.some.injEq] at hfind
    subst hfind
    exact le_refl 0
  · rw [if_neg hc] at hfind
    exact h pid2 p2 hfind

theorem judgeSubmission_ok_nonneg (st st2 : RoomState) (hs sid : String) (c : Bool)
    (h : ScoresNonneg st) (hrun : judgeSubmission st hs sid c = .ok st2) :
    ScoresNonneg st2 := by
  cases hroom : st.room with
  | none => simp [judgeSubmission, hroom] at hrun
  | some room =>
    by_cases hsec : room.hostSecret = hs
    · cases hfind : findRec sid st.submissions with
      | none => simp [judgeSubmission, hroom, hsec, hfind] at hrun
      | some sub =>
        cases hj : sub.judged with
        | some b =>
          simp [judgeSubmission, hroom, hsec, hfind, hj] at hrun
          subst hrun
          exact h
        | none =>
          cases hp : findRec sub.playerId st.players with
          | none =>
            simp [judgeSubmission, hroom, hsec, hfind, hj, hp] at hrun
            subst hrun
            intro pid2 p2 hfind2
            exact h pid2 p2 hfind2
          | some p =>
            simp [judgeSubmission, hroom, hsec, hfind, hj, hp] at hrun
            subst hrun
            intro pid2 p2 hfind2
            simp only [findRec_setRec] at hfind2
            by_cases hc2 : pid2 = sub.playerId
            · rw [if_pos hc2, Option.some.injEq] at hfind2
              subst hfind2
              have hps := h sub.playerId p hp
              cases c <;> simp <;> omega
            · rw [if_neg hc2] at hfind2
              exact h pid2 p2 hfind2
    · simp [judgeSubmission, hroom, hsec] at hrun

theorem judgeFinal_ok_nonneg (st st2 : RoomState) (hs pid : String) (c : Bool)
    (h : ScoresNonneg st) (hrun : judgeFinal st hs pid c = .ok st2) :
    ScoresNonneg st2 := by
  cases hroom : st.room with
  | none => simp [judgeFinal, hroom] at hrun
  | some room =>
    by_cases hsec : room.hostSecret = hs
    · cases hans : findRec pid st.finalAnswers with
      | none => simp [judgeFinal, hroom, hsec, hans] at hrun
      | some ans =>
        cases hj : ans.judged with
        | some b =>
          simp [judgeFinal, hroom, hsec, hans, hj] at hrun
          subst hrun
          exact h
        | none =>
          cases hp : findRec pid st.players with
          | none => simp [judgeFinal, hroom, hsec, hans, hj, hp] at hrun
          | some p =>
            cases hw : findRec pid st.wagers with
            | none =>
              simp [judgeFinal, hroom, hsec, hans, hj, hp, hw] at hrun
              subst hrun
              intro pid2 p2 hfind2
              simp only [findRec_setRec] at hfind2
              by_cases hc2 : pid2 = pid
              · rw [if_pos hc2, Option.some.injEq] at hfind2
                subst hfind2
                have hps := h pid p hp
                cases c <;> simp [clamp] <;> omega
              · rw [if_neg hc2] at hfind2
                exact h pid2 p2 hfind2
            | some wr =>
              simp [judgeFinal, hroom, hsec, hans, hj, hp, hw] at hrun
              subst hrun
              intro pid2 p2 hfind2
              simp only [findRec_setRec] at hfind2
              by_cases hc2 : pid2 = pid
              · rw [if_pos hc2, Option.some.injEq] at hfind2
                subst hfind2
                have hps := h pid p hp
                cases c <;> simp [clamp] <;> omega
              · rw [if_neg hc2] at hfind2
                exact h pid2 p2 hfind2
    · simp [judgeFinal, hroom, hsec] at hrun

theorem applyOp_nonneg (st : RoomState) (op : Op) (h : ScoresNonneg st) :
    ScoresNonneg (applyOp st op) := by
  cases op with
  | join pid name now => exact joinAsPlayer_nonneg st pid name now h
  | answer pid pname qi text now => exact fun pid2 p2 hf => h pid2 p2 hf
  | wagered pid pname amount now => exact fun pid2 p2 hf => h pid2 p2 hf
  | finalAns pid pname text now => exact fun pid2 p2 hf => h pid2 p2 hf
  | judgeSub hs sid c =>
    cases hrun : judgeSubmission st hs sid c with
    | ok st2 =>
      have h2 := judgeSubmission_ok_nonneg st st2 hs sid c h hrun
      simpa [applyOp, hrun] using h2
    | error e => simpa [applyOp, hrun] using h
  | judgeFin hs pid c =>
    cases hrun : judgeFinal st hs pid c with
    | ok st2 =>
      have h2 := judgeFinal_ok_nonneg st st2 hs pid c h hrun
      simpa [applyOp, hrun] using h2
    | error e => simpa [applyOp, hrun] using h

theorem run_nonneg (ops : List Op) (st : RoomState) (h : ScoresNonneg st) :
    ScoresNonneg (run st ops) := by
  induction ops generalizing st with
  | nil => exact h
  | cons op rest ih => exact ih (applyOp st op) (applyOp_nonneg st op h)

/-- C5: from a freshly created room, no sequence of join, ledger-upsert
and judging operations drives any player's score below 0: players join
with score 0, `judgeSubmission` adds only 0 or +1, and `judgeFinal`'s
negative delta is the wager clamped to the score at the moment of
judgment, so every stored score stays non-negative in every reachable
state. -/
theorem scores_nonneg_reachable (hostSecret title : String) (ops : List Op) :
    ScoresNonneg (run (initialState hostSecret title) ops) :=
  run_nonneg ops (initialState hostSecret title) (fun _ _ hf => nomatch hf)

/-- One item of the generated-questions JSON payload; a missing or null
field is `none` (stringified as `""` by `String(x ?? "")`). -/
structure RawItem where
  question : Option String
  answer : Option String
  category : Option String
deriving Repr, DecidableEq

/-- Normalization of one generated item from the POST handler in
`src/app/api/generate/route.ts`: fields are trimmed, a falsy (empty)
category falls back to `"General"`, ids are assigned `i + 1`. -/
def normalizeItem (i : Nat) (q : RawItem) : TriviaQuestion :=
  { id := toString (i + 1)
    question := jsTrim (q.question.getD "")
    answer := jsTrim (q.answer.getD "")
    category :=
      if jsTrim (q.category.getD "") = "" then "General"
      else jsTrim (q.category.getD "") }

/-- Validation of the generated response in the POST handler:
`qs.length !== 10` raises `"Bad questions array"`; a normalized item with
falsy (empty) question or answer raises `"Empty question/answer"`;
otherwise the normalized items are returned. -/
def validateGenerated (qs : List RawItem) : Except String (List TriviaQuestion) :=
  if qs.length ≠ 10 then .error "Bad questions array"
  else
    let normalized := qs.enum.map fun p => normalizeItem p.1 p.2
    if normalized.any fun q => q.question == "" || q.answer == "" then
      .error "Empty question/answer"
    else .ok normalized

/-- The emptiness scan over the normalized items only looks at the trimmed
question and answer of the underlying raw items. -/
theorem any_empty_enumFrom (n : Nat) (qs : List RawItem) :
    (((qs.enumFrom n).map fun p => normalizeItem p.1 p.2).any
        fun q => q.question == "" || q.answer == "") =
      qs.any fun q => jsTrim (q.question.getD "") == "" || jsTrim (q.answer.getD "") == "" := by
  induction qs generalizing n with
  | nil => rfl
  | cons hd tl ih =>
    have h1 : (normalizeItem n hd).question = jsTrim (hd.question.getD "") := rfl
    have h2 : (normalizeItem n hd).answer = jsTrim (hd.answer.getD "") := rfl
    simp only [List.enumFrom, List.map_cons, List.any_cons, h1, h2, ih]

/-- Specialization of `any_empty_enumFrom` to `List.enum`. -/
theorem any_empty_enum (qs : List RawItem) :
    ((qs.enum.map fun p => normalizeItem p.1 p.2).any
        fun q => q.question == "" || q.answer == "") =
      qs.any fun q => jsTrim (q.question.getD "") == "" || jsTrim (q.answer.getD "") == "" :=
  any_empty_enumFrom 0 qs

/-- A 10-item response in which item 3 (index 2) has no category but every
question and answer is populated. -/
def c10MissingCat : List RawItem :=
  [ { question := some "q1", answer := some "a1", category := some "c1" }
  , { question := some "q2", answer := some "a2", category := some "c2" }
  , { question := some "q3", answer := some "a3", category := none }
  , { question := some "q4", answer := some "a4", category := some "c4" }
  , { question := some "q5", answer := some "a5", category := some "c5" }
  , { question := some "q6", answer := some "a6", category := some "c6" }
  , { question := some "q7", answer := some "a7", category := some "c7" }
  , { question := some "q8", answer := some "a8", category := some "c8" }
  , { question := some "q9", answer := some "a9", category := some "c9" }
  , { question := some "q10", answer := some "a10", category := some "c10" } ]

/-- C10 counterexample: a response with an item missing its `category` is
not rejected; validation succeeds and the missing category is replaced by
`"General"`.  Only an empty question or answer causes rejection. -/
theorem validateGenerated_counterexample :
    (c10MissingCat.get? 2).map RawItem.category = some none ∧
    validateGenerated c10MissingCat =
      .ok
        [ { id := "1", question := "q1", answer := "a1", category := "c1" }
        , { id := "2", question := "q2", answer := "a2", category := "c2" }
        , { id := "3", question := "q3", answer := "a3", category := "General" }
        , { id := "4", question := "q4", answer := "a4", category := "c4" }
        , { id := "5", question := "q5", answer := "a5", category := "c5" }
        , { id := "6", question := "q6", answer := "a6", category := "c6" }
        , { id := "7", question := "q7", answer := "a7", category := "c7" }
        , { id := "8", question := "q8", answer := "a8", category := "c8" }
        , { id := "9", question := "q9", answer := "a9", category := "c9" }
        , { id := "10", question := "q10", answer := "a10", category := "c10" } ] :=
  ⟨rfl, rfl⟩

/-- C10 amended: validation passes exactly when the response has 10 items
and every item's question and answer are non-empty after trimming, in
which case the output is the normalized items; a response without exactly
10 items is rejected outright; any item with an empty or
missing question or answer rejects the whole response (all-or-nothing);
an already-trimmed, fully populated item is normalized unchanged apart
from the assigned id; a missing category does not reject, it defaults. -/
theorem validateGenerated_amended :
    (∀ qs : List RawItem, qs.length = 10 →
        (∀ q ∈ qs, ¬ jsTrim (q.question.getD "") = "" ∧ ¬ jsTrim (q.answer.getD "") = "") →
        validateGenerated qs = .ok (qs.enum.map fun p => normalizeItem p.1 p.2)) ∧
    (∀ (qs : List RawItem) (q : RawItem), q ∈ qs →
        (jsTrim (q.question.getD "") = "" ∨ jsTrim (q.answer.getD "") = "") →
        validateGenerated qs = .error "Bad questions array" ∨
        validateGenerated qs = .error "Empty question/answer") ∧
    (∀ (i : Nat) (q a c : String), jsTrim q = q → jsTrim a = a → jsTrim c = c → ¬ c = "" →
        normalizeItem i { question := some q, answer := some a, category := some c } =
          { id := toString (i + 1), question := q, answer := a, category := c }) ∧
    (∀ qs : List RawItem, ¬ qs.length = 10 →
        validateGenerated qs = .error "Bad questions array") := by
  refine ⟨?_, ?_, ?_, ?_⟩
  · intro qs hlen hgood
    have hany : (qs.any fun q =>
        jsTrim (q.question.getD "") == "" || jsTrim (q.answer.getD "") == "") = false := by
      rw [List.any_eq_false]
      intro q hq
      obtain ⟨h1, h2⟩ := hgood q hq
      simp [h1, h2]
    unfold validateGenerated
    simp [hlen, any_empty_enum, hany]
  · intro qs q hq hbad
    by_cases hlen : qs.length = 10
    · right
      have hany : (qs.any fun q =>
          jsTrim (q.question.getD "") == "" || jsTrim (q.answer.getD "") == "") = true := by
        rw [List.any_eq_true]
        refine ⟨q, hq, ?_⟩
        rcases hbad with h | h <;> simp [h]
      unfold validateGenerated
      simp [hlen, any_empty_enum, hany]
    · left
      unfold validateGenerated
      simp [hlen]
  · intro i q a c hq ha hc hcne
    simp [normalizeItem, hq, ha, hc, hcne]
  · intro qs hlen
    unfold validateGenerated
    simp [hlen]

/-- A fully populated, already-trimmed 10-item response. -/
def c10Good : List RawItem :=
  [ { question := some "g1", answer := some "b1", category := some "d1" }
  , { question := some "g2", answer := some "b2", category := some "d2" }
  , { question := some "g3", answer := some "b3", category := some "d3" }
  , { question := some "g4", answer := some "b4", category := some "d4" }
  , { question := some "g5", answer := some "b5", category := some "d5" }
  , { question := some "g6", answer := some "b6", category := some "d6" }
  , { question := some "g7", answer := some "b7", category := some "d7" }
  , { question := some "g8", answer := some "b8", category := some "d8" }
  , { question := some "g9", answer := some "b9", category := some "d9" }
  , { question := some "g10", answer := some "b10", category := some "d10" } ]

/-- A fully populated one-item response, short of the required ten. -/
def c10Short : List RawItem :=
  [ { question := some "g1", answer := some "b1", category := some "d1" } ]

/-- A 10-item response whose item 5 is missing its answer. -/
def c10Bad : List RawItem :=
  [ { question := some "g1", answer := some "b1", category := some "d1" }
  , { question := some "g2", answer := some "b2", category := some "d2" }
  , { question := some "g3", answer := some "b3", category := some "d3" }
  , { question := some "g4", answer := some "b4", category := some "d4" }
  , { question := some "g5", answer := none, category := some "d5" }
  , { question := some "g6", answer := some "b6", category := some "d6" }
  , { question := some "g7", answer := some "b7", category := some "d7" }
  , { question := some "g8", answer := some "b8", category := some "d8" }
  , { question := some "g9", answer := some "b9", category := some "d9" }
  , { question := some "g10", answer := some "b10", category := some "d10" } ]

theorem validateGenerated_amended_witness :
    validateGenerated c10Good = .ok (c10Good.enum.map fun p => normalizeItem p.1 p.2) ∧
    (validateGenerated c10Bad = .error "Bad questions array" ∨
      validateGenerated c10Bad = .error "Empty question/answer") ∧
    normalizeItem 0 { question := some "Q", answer := some "A", category := some "Cat" } =
      { id := "1", question := "Q", answer := "A", category := "Cat" } ∧
    validateGenerated c10Short = .error "Bad questions array" :=
  ⟨validateGenerated_amended.1 c10Good rfl (by decide),
   validateGenerated_amended.2.1 c10Bad
     { question := some "g5", answer := none, category := some "d5" }
     (by decide) (by decide),
   validateGenerated_amended.2.2.1 0 "Q" "A" "Cat" (by decide) (by decide) (by decide)
     (by decide),
   validateGenerated_amended.2.2.2 c10Short (by decide)⟩

end Trivia
